import Mathlib

/-!
Verification of the pixel-statistics model of `src/notebook_code.py`
(repository entropy-pixel-array).

The source defines a plain dataclass `InputParameters` holding three real
scalars (flux, pixel_area, frame_duration) and a chain of derived-quantity
methods, plus module-level sweep loops that mutate a single instance.
Here the dataclass is embedded as a Lean structure over the real numbers
and each method as a function of the structure; the module-level flux-sweep
loop is embedded as explicit state passing.
-/

namespace EntropyPixelArray

open Real

/-- Embeds the dataclass `InputParameters` (src/notebook_code.py lines 5-9):
three mutable real-valued fields, no validation of any kind is performed by
the generated initializer or by field assignment. -/
@[ext]
structure InputParameters where
  flux : ℝ
  pixel_area : ℝ
  frame_duration : ℝ

/-- `calculate_flux_area_product` (line 17): `self.flux * self.pixel_area`. -/
noncomputable def calculate_flux_area_product (p : InputParameters) : ℝ :=
  p.flux * p.pixel_area

/-- `calculate_flux_area_frame_duration_product` (line 21):
`self.flux * self.pixel_area * self.frame_duration`. -/
noncomputable def calculate_flux_area_frame_duration_product (p : InputParameters) : ℝ :=
  p.flux * p.pixel_area * p.frame_duration

/-- `calculate_pixel_occupancy` (lines 25-26):
`1 - np.exp(-lambda_pixel)` where `lambda_pixel` is the
flux-area-frame-duration product. -/
noncomputable def calculate_pixel_occupancy (p : InputParameters) : ℝ :=
  let lambda_pixel := calculate_flux_area_frame_duration_product p
  1 - Real.exp (-lambda_pixel)

/-- Body of `calculate_pixel_entropy` (lines 31-33) as a function of the
locally bound `occupancy` value: return 0.0 when occupancy is exactly 0 or
exactly 1, otherwise `-occupancy*log2(occupancy) - (1-occupancy)*log2(1-occupancy)`. -/
noncomputable def entropyOfOccupancy (occupancy : ℝ) : ℝ :=
  if occupancy = 0 ∨ occupancy = 1 then 0
  else -occupancy * Real.logb 2 occupancy - (1 - occupancy) * Real.logb 2 (1 - occupancy)

/-- `calculate_pixel_entropy` (lines 28-33): binds
`occupancy = self.calculate_pixel_occupancy()` and applies the guarded
binary-entropy formula to it. -/
noncomputable def calculate_pixel_entropy (p : InputParameters) : ℝ :=
  entropyOfOccupancy (calculate_pixel_occupancy p)

/-- `calculate_entropy_per_cm2` (line 37): `self.calculate_pixel_entropy() / self.pixel_area`. -/
noncomputable def calculate_entropy_per_cm2 (p : InputParameters) : ℝ :=
  calculate_pixel_entropy p / p.pixel_area

/-- `calculate_entropy_per_cm2_per_s` (line 41):
`self.calculate_entropy_per_cm2() / self.frame_duration`. -/
noncomputable def calculate_entropy_per_cm2_per_s (p : InputParameters) : ℝ :=
  calculate_entropy_per_cm2 p / p.frame_duration

/-- The module-level flux sweep loop (src/notebook_code.py lines 149-156):
for each flux value in order, the loop mutates the `flux` field of the single
shared `InputParameters` instance, evaluates
`calculate_entropy_per_cm2_per_s`, and appends the pair
`(flux, entropy_per_cm2_per_s)` to the result list. The mutation is embedded
as explicit state passing: the updated instance is carried into the next
iteration. -/
noncomputable def fluxSweepLoop (inputParameters : InputParameters) :
    List ℝ → List (ℝ × ℝ)
  | [] => []
  | flux :: rest =>
    let updated : InputParameters := { inputParameters with flux := flux }
    (flux, calculate_entropy_per_cm2_per_s updated) :: fluxSweepLoop updated rest

/-! ### Helper lemmas -/

/-- The guarded formula of `calculate_pixel_entropy` agrees everywhere with
Mathlib's natural-log binary entropy divided by `log 2`. -/
lemma entropyOfOccupancy_eq_binEntropy_div_log_two (q : ℝ) :
    entropyOfOccupancy q = Real.binEntropy q / Real.log 2 := by
  unfold entropyOfOccupancy
  by_cases h : q = 0 ∨ q = 1
  · rcases h with h | h <;> simp [h]
  · push_neg at h
    rw [if_neg (by push_neg; exact h)]
    rw [Real.binEntropy, Real.log_inv, Real.log_inv, Real.logb, Real.logb]
    ring

/-- `calculate_pixel_occupancy` is monotone in the flux-area-frame-duration
product. -/
lemma occupancy_mono {p q : InputParameters}
    (h : calculate_flux_area_frame_duration_product p ≤
      calculate_flux_area_frame_duration_product q) :
    calculate_pixel_occupancy p ≤ calculate_pixel_occupancy q := by
  unfold calculate_pixel_occupancy
  have := Real.exp_le_exp.mpr (neg_le_neg h)
  simp only []
  linarith

/-- Unfolding the flux sweep: since each iteration overwrites only `flux`, the
carried state always keeps the base values of the other two fields, so the
loop computes a pure map over the value list. -/
lemma fluxSweepLoop_eq_map (base : InputParameters) (values : List ℝ) :
    fluxSweepLoop base values =
      values.map (fun f =>
        (f, calculate_entropy_per_cm2_per_s
          (InputParameters.mk f base.pixel_area base.frame_duration))) := by
  induction values generalizing base with
  | nil => rfl
  | cons f rest ih =>
    simp only [fluxSweepLoop, List.map_cons, ih]

/-! ### Claims -/

/-- C1 counterexample: the claim that construction with `flux = -1` fails with
a DomainValidityError and produces no usable instance is false on the code.
The dataclass initializer performs no validation: `InputParameters(-1, 1, 1)`
is constructed, stores the invalid flux, and derived quantities are computed
directly from it, with the occupancy coming out negative. -/
theorem construction_with_negative_flux_succeeds :
    (InputParameters.mk (-1) 1 1).flux = -1 ∧
    calculate_flux_area_frame_duration_product (InputParameters.mk (-1) 1 1) = -1 ∧
    calculate_pixel_occupancy (InputParameters.mk (-1) 1 1) = 1 - Real.exp 1 ∧
    calculate_pixel_occupancy (InputParameters.mk (-1) 1 1) < 0 := by
  refine ⟨rfl, by norm_num [calculate_flux_area_frame_duration_product], ?_, ?_⟩
  · show (1 : ℝ) - Real.exp (-(-1 * 1 * 1)) = 1 - Real.exp 1
    norm_num
  · show (1 : ℝ) - Real.exp (-(-1 * 1 * 1)) < 0
    have h1 : (1 : ℝ) < Real.exp 1 := by
      have := Real.add_one_le_exp (1 : ℝ)
      linarith
    have h2 : (-(-1 * 1 * 1) : ℝ) = 1 := by norm_num
    rw [h2]
    linarith

/-- C1 amended: constructing or mutating an `InputParameters` performs no
validity check and never fails, regardless of the field values. Construction
stores exactly the given values, mutation of a field stores exactly the new
value, and every derived quantity is computed directly from whatever values
are currently stored, including invalid ones. -/
theorem construction_and_mutation_unvalidated (f a d g : ℝ) :
    (InputParameters.mk f a d).flux = f ∧
    (InputParameters.mk f a d).pixel_area = a ∧
    (InputParameters.mk f a d).frame_duration = d ∧
    ({ InputParameters.mk f a d with flux := g } : InputParameters).flux = g ∧
    calculate_pixel_occupancy (InputParameters.mk f a d) =
      1 - Real.exp (-(f * a * d)) :=
  ⟨rfl, rfl, rfl, rfl, rfl⟩

/-- C2: for every parameter set, the occupancy equals
`1 - exp(-meanHitsPerFrame)`, where the mean hits per frame is
`flux * pixelArea * frameDuration` and the mean hits per second is
`flux * pixelArea`. -/
theorem occupancy_formula (p : InputParameters) :
    calculate_pixel_occupancy p =
      1 - Real.exp (-(calculate_flux_area_frame_duration_product p)) ∧
    calculate_flux_area_frame_duration_product p =
      p.flux * p.pixel_area * p.frame_duration ∧
    calculate_flux_area_product p = p.flux * p.pixel_area :=
  ⟨rfl, rfl, rfl⟩

/-- C4: for every parameter set with nonnegative flux and positive pixel area
and frame duration, the occupancy lies in `[0, 1)`. -/
theorem occupancy_mem_Ico (p : InputParameters)
    (hf : 0 ≤ p.flux) (ha : 0 < p.pixel_area) (hd : 0 < p.frame_duration) :
    0 ≤ calculate_pixel_occupancy p ∧ calculate_pixel_occupancy p < 1 := by
  have hl : 0 ≤ calculate_flux_area_frame_duration_product p :=
    mul_nonneg (mul_nonneg hf ha.le) hd.le
  unfold calculate_pixel_occupancy
  simp only []
  constructor
  · have : Real.exp (-(calculate_flux_area_frame_duration_product p)) ≤ Real.exp 0 :=
      Real.exp_le_exp.mpr (by linarith)
    rw [Real.exp_zero] at this
    linarith
  · have := Real.exp_pos (-(calculate_flux_area_frame_duration_product p))
    linarith

/-- C4 witness: the occupancy bounds at the concrete parameter set
`(flux, pixelArea, frameDuration) = (1, 1, 1)`. -/
theorem occupancy_mem_Ico_witness :
    0 ≤ calculate_pixel_occupancy (InputParameters.mk 1 1 1) ∧
    calculate_pixel_occupancy (InputParameters.mk 1 1 1) < 1 :=
  occupancy_mem_Ico (InputParameters.mk 1 1 1)
    (by norm_num) (by norm_num) (by norm_num)

/-- C6: with flux exactly 0 and positive pixel area and frame duration, the
whole derivation chain is exactly zero: mean hits per frame, occupancy,
entropy and entropy rate density all evaluate to 0. -/
theorem zero_flux_chain (p : InputParameters)
    (hf : p.flux = 0) (ha : 0 < p.pixel_area) (hd : 0 < p.frame_duration) :
    calculate_flux_area_frame_duration_product p = 0 ∧
    calculate_pixel_occupancy p = 0 ∧
    calculate_pixel_entropy p = 0 ∧
    calculate_entropy_per_cm2_per_s p = 0 := by
  have hlam : calculate_flux_area_frame_duration_product p = 0 := by
    unfold calculate_flux_area_frame_duration_product
    rw [hf]; ring
  have hocc : calculate_pixel_occupancy p = 0 := by
    unfold calculate_pixel_occupancy
    rw [hlam]
    simp
  have hent : calculate_pixel_entropy p = 0 := by
    unfold calculate_pixel_entropy entropyOfOccupancy
    rw [hocc]
    simp
  refine ⟨hlam, hocc, hent, ?_⟩
  unfold calculate_entropy_per_cm2_per_s calculate_entropy_per_cm2
  rw [hent]
  simp

/-- C6 witness: the zero chain at the concrete parameter set `(0, 1, 1)`. -/
theorem zero_flux_chain_witness :
    calculate_flux_area_frame_duration_product (InputParameters.mk 0 1 1) = 0 ∧
    calculate_pixel_occupancy (InputParameters.mk 0 1 1) = 0 ∧
    calculate_pixel_entropy (InputParameters.mk 0 1 1) = 0 ∧
    calculate_entropy_per_cm2_per_s (InputParameters.mk 0 1 1) = 0 :=
  zero_flux_chain (InputParameters.mk 0 1 1) rfl (by norm_num) (by norm_num)

/-- C3: the entropy computation returns exactly 0 when the occupancy is
exactly 0 or exactly 1 (exact equality, no epsilon); for any occupancy
strictly between 0 and 1 the formula is applied as written and the result is
strictly positive and at most 1 bit; the maximum of exactly 1 bit is attained
at occupancy 1/2; and the method applies this computation to the occupancy of
the parameter set. -/
theorem entropy_edge_cases_and_range (q : ℝ) :
    ((q = 0 ∨ q = 1) → entropyOfOccupancy q = 0) ∧
    (q ≠ 0 → q ≠ 1 →
      entropyOfOccupancy q =
        -q * Real.logb 2 q - (1 - q) * Real.logb 2 (1 - q)) ∧
    (0 < q → q < 1 → 0 < entropyOfOccupancy q ∧ entropyOfOccupancy q ≤ 1) ∧
    entropyOfOccupancy (1 / 2) = 1 ∧
    (∀ p : InputParameters,
      calculate_pixel_entropy p = entropyOfOccupancy (calculate_pixel_occupancy p)) := by
  have hlog2 : 0 < Real.log 2 := Real.log_pos one_lt_two
  refine ⟨?_, ?_, ?_, ?_, fun _ => rfl⟩
  · intro h
    unfold entropyOfOccupancy
    rw [if_pos h]
  · intro h0 h1
    unfold entropyOfOccupancy
    rw [if_neg (by push_neg; exact ⟨h0, h1⟩)]
  · intro h0 h1
    rw [entropyOfOccupancy_eq_binEntropy_div_log_two]
    exact ⟨div_pos (Real.binEntropy_pos h0 h1) hlog2,
      (div_le_one hlog2).mpr Real.binEntropy_le_log_two⟩
  · rw [entropyOfOccupancy_eq_binEntropy_div_log_two]
    rw [show (1 / 2 : ℝ) = 2⁻¹ by norm_num, Real.binEntropy_two_inv]
    exact div_self hlog2.ne'

/-- C3 witness: at the concrete occupancy 1/4 the entropy is strictly
positive and at most 1, and at occupancy 0 it is exactly 0. -/
theorem entropy_edge_cases_and_range_witness :
    (0 : ℝ) < 1 / 4 ∧ (1 / 4 : ℝ) < 1 ∧
    (0 < entropyOfOccupancy (1 / 4) ∧ entropyOfOccupancy (1 / 4) ≤ 1) ∧
    entropyOfOccupancy 0 = 0 :=
  ⟨by norm_num, by norm_num,
    (entropy_edge_cases_and_range (1 / 4)).2.2.1 (by norm_num) (by norm_num),
    (entropy_edge_cases_and_range 0).1 (Or.inl rfl)⟩

/-- C5: occupancy is monotonically non-decreasing in each of flux, pixel area
and frame duration independently: for two valid parameter sets that agree on
the other two fields, a larger value of the varied field gives an occupancy
at least as large. -/
theorem occupancy_monotone (p q : InputParameters)
    (hf : 0 ≤ p.flux) (ha : 0 < p.pixel_area) (hd : 0 < p.frame_duration)
    (hf2 : 0 ≤ q.flux) (ha2 : 0 < q.pixel_area) (hd2 : 0 < q.frame_duration) :
    ((p.pixel_area = q.pixel_area ∧ p.frame_duration = q.frame_duration ∧
        p.flux ≤ q.flux) →
      calculate_pixel_occupancy p ≤ calculate_pixel_occupancy q) ∧
    ((p.flux = q.flux ∧ p.frame_duration = q.frame_duration ∧
        p.pixel_area ≤ q.pixel_area) →
      calculate_pixel_occupancy p ≤ calculate_pixel_occupancy q) ∧
    ((p.flux = q.flux ∧ p.pixel_area = q.pixel_area ∧
        p.frame_duration ≤ q.frame_duration) →
      calculate_pixel_occupancy p ≤ calculate_pixel_occupancy q) := by
  refine ⟨?_, ?_, ?_⟩ <;> rintro ⟨h1, h2, h3⟩ <;> apply occupancy_mono <;>
    unfold calculate_flux_area_frame_duration_product
  · rw [h1, h2]
    exact mul_le_mul_of_nonneg_right (mul_le_mul_of_nonneg_right h3 ha2.le) hd2.le
  · rw [h1, h2]
    exact mul_le_mul_of_nonneg_right (mul_le_mul_of_nonneg_left h3 hf2) hd2.le
  · rw [h1, h2]
    exact mul_le_mul_of_nonneg_left h3 (mul_nonneg hf2 ha2.le)

/-- C5 witness: raising flux from 1 to 2 while pixel area and frame duration
stay at 1 does not decrease the occupancy. -/
theorem occupancy_monotone_witness :
    calculate_pixel_occupancy (InputParameters.mk 1 1 1) ≤
      calculate_pixel_occupancy (InputParameters.mk 2 1 1) :=
  (occupancy_monotone (InputParameters.mk 1 1 1) (InputParameters.mk 2 1 1)
      (by norm_num) (by norm_num) (by norm_num)
      (by norm_num) (by norm_num) (by norm_num)).1
    ⟨rfl, rfl, by norm_num⟩

/-- C7: the binary entropy computation is symmetric in the occupancy: for
every occupancy value in the closed interval from 0 to 1, the entropy
computed from occupancy q equals the entropy computed from occupancy 1 - q
(exactly, in the real-number model). -/
theorem entropy_symmetric (q : ℝ) (hq : q ∈ Set.Icc (0 : ℝ) 1) :
    entropyOfOccupancy q = entropyOfOccupancy (1 - q) := by
  rw [entropyOfOccupancy_eq_binEntropy_div_log_two,
    entropyOfOccupancy_eq_binEntropy_div_log_two, Real.binEntropy_one_sub]

/-- C7 witness: symmetry at the concrete occupancy 1/4. -/
theorem entropy_symmetric_witness :
    entropyOfOccupancy (1 / 4 : ℝ) = entropyOfOccupancy (1 - 1 / 4) :=
  entropy_symmetric (1 / 4) (Set.mem_Icc.mpr ⟨by norm_num, by norm_num⟩)

/-- C8: the flux sweep produces exactly one pair per input value, in the
input order, with first components exactly the input values; each pair's
second component equals the entropy rate density evaluated directly on a
parameter set holding that flux value together with the base pixel area and
frame duration (only the flux field differs from the base per step). -/
theorem flux_sweep_correct (base : InputParameters) (values : List ℝ) :
    fluxSweepLoop base values =
      values.map (fun f =>
        (f, calculate_entropy_per_cm2_per_s
          (InputParameters.mk f base.pixel_area base.frame_duration))) ∧
    (fluxSweepLoop base values).length = values.length ∧
    (fluxSweepLoop base values).map Prod.fst = values := by
  refine ⟨fluxSweepLoop_eq_map base values, ?_, ?_⟩
  · rw [fluxSweepLoop_eq_map]
    simp
  · rw [fluxSweepLoop_eq_map, List.map_map]
    exact List.map_id values

/-- C9: every derived-quantity method is a pure function of the three current
field values: any two parameter sets whose fields are respectively equal
(however they were obtained, including by mutation) give identical results
for all six derived quantities. -/
theorem derived_quantities_pure (p q : InputParameters)
    (hf : p.flux = q.flux) (ha : p.pixel_area = q.pixel_area)
    (hd : p.frame_duration = q.frame_duration) :
    calculate_flux_area_product p = calculate_flux_area_product q ∧
    calculate_flux_area_frame_duration_product p =
      calculate_flux_area_frame_duration_product q ∧
    calculate_pixel_occupancy p = calculate_pixel_occupancy q ∧
    calculate_pixel_entropy p = calculate_pixel_entropy q ∧
    calculate_entropy_per_cm2 p = calculate_entropy_per_cm2 q ∧
    calculate_entropy_per_cm2_per_s p = calculate_entropy_per_cm2_per_s q := by
  have hpq : p = q := InputParameters.ext hf ha hd
  subst hpq
  exact ⟨rfl, rfl, rfl, rfl, rfl, rfl⟩

/-- C9 witness: a freshly built parameter set and one obtained by mutating
the flux of a different instance back to the same field values give identical
occupancy and entropy rate density. -/
theorem derived_quantities_pure_witness :
    calculate_pixel_occupancy (InputParameters.mk 1 1 1) =
      calculate_pixel_occupancy
        ({ InputParameters.mk 2 1 1 with flux := 1 } : InputParameters) ∧
    calculate_entropy_per_cm2_per_s (InputParameters.mk 1 1 1) =
      calculate_entropy_per_cm2_per_s
        ({ InputParameters.mk 2 1 1 with flux := 1 } : InputParameters) :=
  ⟨(derived_quantities_pure (InputParameters.mk 1 1 1)
      { InputParameters.mk 2 1 1 with flux := 1 } rfl rfl rfl).2.2.1,
    (derived_quantities_pure (InputParameters.mk 1 1 1)
      { InputParameters.mk 2 1 1 with flux := 1 } rfl rfl rfl).2.2.2.2.2⟩

/-- C10: the parameter-set type has structural equality: two instances are
equal exactly when their flux, pixel_area and frame_duration fields are
respectively equal, mirroring the dataclass-generated field-wise equality. -/
theorem structural_equality (p q : InputParameters) :
    p = q ↔
      (p.flux = q.flux ∧ p.pixel_area = q.pixel_area ∧
        p.frame_duration = q.frame_duration) := by
  constructor
  · rintro rfl
    exact ⟨rfl, rfl, rfl⟩
  · rintro ⟨hf, ha, hd⟩
    exact InputParameters.ext hf ha hd

end EntropyPixelArray
